import Mathlib

/-!
Verification of the orange range-query client (client.go).

The embedding models the request-resolution engine: `NewClient` construction
and validation, the retry loop `query`, the per-invocation resolver
`getFromRangeServer` with its GET/PUT method negotiation, and the body
helper `readAndClose`.

Modelling conventions:
- Go byte strings are Lean `String`; Go `len` on a string is the UTF-8 byte
  length, embedded as `byteLen`.
- The injected HTTP transport (the `Doer` interface) is an oracle: a function
  from the index of the transport call (the number of calls made so far) and
  the outgoing request to either a transport error or an `HttpResponse`.
- A `context.Context` is modelled by `Ctx := Option Nat`: `some d` means the
  context concludes at logical time `d`, `none` means it never concludes.
  Logical time advances by 2 for each transport call (one tick for the send,
  one for the receive), so a context may conclude strictly between the send
  and the receive of a call.  The pre-send cancellation check in the resolver
  reads the clock before the send; the top-level select in `query` compares
  the conclusion time with the clock at which the worker finished.
- Mutable state threaded through the client (the round-robin cursor, the
  trace of transport calls, the sleep count, the clock) is the record `St`.
- `time.Sleep` has no observable effect beyond being counted in `St.sleeps`.
- The resolver dispatch has a panic branch for an unsupported method; a panic
  is modelled as the `none` result of an `Option`.
-/

/-- The maximum length of the URI for an outgoing GET query; longer queries
are sent via PUT (constant `defaultQueryLengthThreshold` in client.go). -/
def defaultQueryLengthThreshold : Nat := 4096

/-- UTF-8 encoding of one character as a list of byte values, as Go strings
are sequences of UTF-8 bytes. -/
def utf8Bytes (c : Char) : List Nat :=
  let n := c.toNat
  if n < 0x80 then [n]
  else if n < 0x800 then
    [0xC0 ||| (n >>> 6), 0x80 ||| (n &&& 0x3F)]
  else if n < 0x10000 then
    [0xE0 ||| (n >>> 12), 0x80 ||| ((n >>> 6) &&& 0x3F), 0x80 ||| (n &&& 0x3F)]
  else
    [0xF0 ||| (n >>> 18), 0x80 ||| ((n >>> 12) &&& 0x3F),
     0x80 ||| ((n >>> 6) &&& 0x3F), 0x80 ||| (n &&& 0x3F)]

/-- The bytes of a string under UTF-8, as Go sees a string. -/
def stringBytes (s : String) : List Nat :=
  s.data.foldr (fun c acc => utf8Bytes c ++ acc) []

/-- Go `len` of a string: its length in bytes. -/
def byteLen (s : String) : Nat :=
  (stringBytes s).length

/-- Whether a byte is left unescaped by Go url.QueryEscape: ASCII letters,
digits, and the marks `-` `_` `.` `~`. -/
def queryUnreserved (b : Nat) : Bool :=
  (0x41 ≤ b && b ≤ 0x5A) || (0x61 ≤ b && b ≤ 0x7A) || (0x30 ≤ b && b ≤ 0x39) ||
  b == 0x2D || b == 0x5F || b == 0x2E || b == 0x7E

/-- Upper-case hexadecimal digit for a value below 16. -/
def hexDigit (n : Nat) : Char :=
  if n < 10 then Char.ofNat (0x30 + n) else Char.ofNat (0x41 + (n - 10))

/-- How Go url.QueryEscape renders one byte: kept verbatim when unreserved,
a space becomes `+`, anything else becomes percent plus two hex digits. -/
def byteEscape (b : Nat) : List Char :=
  if queryUnreserved b then [Char.ofNat b]
  else if b == 0x20 then [Char.ofNat 0x2B]
  else [Char.ofNat 0x25, hexDigit (b / 16), hexDigit (b % 16)]

/-- Go url.QueryEscape: percent-encoding of a string for a query component. -/
def queryEscape (s : String) : String :=
  String.mk ((stringBytes s).foldr (fun b acc => byteEscape b ++ acc) [])

/-- The errors the client produces.  `statusNotOK` carries the status line and
the numeric code (ErrStatusNotOK), `rangeException` the header message
(ErrRangeException); `transport` is a network-level failure returned by the
Doer; `contextConcluded` is the error of a concluded context; `readError` and
`closeError` arise from consuming a response body. -/
inductive OError where
  | rangeException (message : String)
  | statusNotOK (status : String) (statusCode : Nat)
  | transport (message : String)
  | contextConcluded
  | readError (message : String)
  | closeError (message : String)
deriving DecidableEq, Repr, Inhabited

/-- A response body as the transport hands it over: the outcome of reading it
to the end and the outcome of closing it. -/
structure Body where
  readResult : Except String String
  closeResult : Option String
deriving Repr, Inhabited

/-- An HTTP response: status line, numeric status code, the value of the
RangeException header (empty when absent, as Go Header.Get reports), and the
body. -/
structure HttpResponse where
  status : String
  statusCode : Nat
  rangeException : String
  body : Body
deriving Repr, Inhabited

/-- One outgoing HTTP request as recorded in the trace: the server it
targets, the method, the URL, and the request body (empty for GET). -/
structure Attempt where
  server : String
  method : String
  url : String
  reqBody : String
deriving DecidableEq, Repr, Inhabited

/-- The injected HTTP transport (the Doer interface): given the index of this
transport call and the outgoing request, either a transport error or a
response. -/
def Doer : Type :=
  Nat → Attempt → Except String HttpResponse

/-- A context: `some d` concludes at logical time `d`, `none` never does. -/
def Ctx : Type :=
  Option Nat

/-- Whether the context has concluded at logical time `t`. -/
def ctxDone (ctx : Ctx) (t : Nat) : Bool :=
  match ctx with
  | none => false
  | some d => d ≤ t

/-- Whether the context concluded strictly before logical time `t`. -/
def ctxBefore (ctx : Ctx) (t : Nat) : Bool :=
  match ctx with
  | none => false
  | some d => d < t

/-- The mutable state threaded through a client: the round-robin cursor, the
trace of transport calls made so far, how many inter-retry sleeps occurred,
and the logical clock (2 ticks per transport call). -/
structure St where
  cursor : Nat
  trace : List Attempt
  sleeps : Nat
  clock : Nat
deriving Repr, Inhabited

/-- The client: the transport, the round-robin server list, the retry
callback (given the current attempt counter and the error, decide whether to
retry; the counter argument encodes a stateful Go closure as a pure
function), the retry count and the retry pause. -/
structure Client where
  httpClient : Doer
  servers : List String
  retryCallback : Nat → OError → Bool
  retryCount : Nat
  retryPause : Nat

/-- readAndClose: read the whole body, then close it regardless of the read
outcome; a read error takes precedence over a close error.  The two boolean
components record that the read and the close were both attempted. -/
def readAndClose (rc : Body) : (Except OError String) × Bool × Bool :=
  let buf := rc.readResult
  let cerr := rc.closeResult
  (match buf with
   | Except.error rerr => Except.error (OError.readError rerr)
   | Except.ok b =>
     match cerr with
     | some ce => Except.error (OError.closeError ce)
     | none => Except.ok b, true, true)

/-- The server the round-robin selector yields at a given cursor. -/
def serverAt (servers : List String) (cursor : Nat) : String :=
  servers.getD (cursor % servers.length) ""

/-- The endpoint for a server: used for both GET and PUT. -/
def endpointFor (server : String) : String :=
  "http://" ++ server ++ "/range/list"

/-- The GET URI: the endpoint with the percent-encoded expression as the
query component. -/
def uriFor (server : String) (expression : String) : String :=
  endpointFor server ++ "?" ++ queryEscape expression

/-- The PUT request body: the form encoding of `query=<expression>`. -/
def putBody (expression : String) : String :=
  "query=" ++ queryEscape expression

/-- The method-negotiation loop inside getFromRangeServer: up to `tries`
local attempts against the one server chosen for this invocation.  Before
each send the context is checked; the method dispatch panics (`none`) on a
method other than GET and PUT; 200 succeeds or raises the RangeException of
its header; 414 flips the method to PUT, 405 flips it to GET, and any other
status only records the StatusNotOK error, the loop continuing in every
non-200 case until the tries are exhausted, when the last recorded error (or
a nil success when none was recorded) is returned. -/
def getLoop (doer : Doer) (ctx : Ctx) (server endpoint uri expression : String) :
    Nat → String → Option OError → St → Option ((Except OError String) × St)
  | 0, _, herr, st =>
    some (match herr with
          | some e => Except.error e
          | none => Except.ok "", st)
  | tries + 1, method, _herr, st =>
    if ctxDone ctx st.clock then
      some (Except.error OError.contextConcluded, st)
    else
      let a? : Option Attempt :=
        if method = "GET" then some ⟨server, "GET", uri, ""⟩
        else if method = "PUT" then some ⟨server, "PUT", endpoint, putBody expression⟩
        else none
      match a? with
      | none => none
      | some a =>
        let r := doer st.trace.length a
        let st1 : St := { st with trace := st.trace ++ [a], clock := st.clock + 2 }
        match r with
        | Except.error msg => some (Except.error (OError.transport msg), st1)
        | Except.ok resp =>
          if resp.statusCode = 200 then
            if resp.rangeException ≠ "" then
              some (Except.error (OError.rangeException resp.rangeException), st1)
            else
              some ((readAndClose resp.body).1, st1)
          else if resp.statusCode = 414 then
            getLoop doer ctx server endpoint uri expression tries "PUT"
              (some (OError.statusNotOK resp.status resp.statusCode)) st1
          else if resp.statusCode = 405 then
            getLoop doer ctx server endpoint uri expression tries "GET"
              (some (OError.statusNotOK resp.status resp.statusCode)) st1
          else
            getLoop doer ctx server endpoint uri expression tries method
              (some (OError.statusNotOK resp.status resp.statusCode)) st1

/-- getFromRangeServer: one resolver invocation.  Selects the next server
(advancing the round-robin cursor once), builds the endpoint and the GET URI,
starts with PUT when the GET URI would exceed the length threshold and with
GET otherwise, then runs the 2-try method-negotiation loop. -/
def getFromRangeServer (c : Client) (ctx : Ctx) (expression : String) (st : St) :
    Option ((Except OError String) × St) :=
  let server := serverAt c.servers st.cursor
  let st1 : St := { st with cursor := st.cursor + 1 }
  let endpoint := endpointFor server
  let uri := uriFor server expression
  let method := if byteLen uri > defaultQueryLengthThreshold then "PUT" else "GET"
  getLoop c.httpClient ctx server endpoint uri expression 2 method none st1

/-- The retry loop run by the worker goroutine of `query`.  `attempts` starts
at 0; after a resolver call the loop stops when the attempt counter equals
the retry count, or the error is absent, or the retry callback rejects the
error; otherwise the counter is incremented, a pause is slept when the
configured pause is positive, and the resolver is called again.  The Go loop
is unbounded; `fuel` is an upper bound on its iterations, sufficient at the
entry point because the counter reaches the retry count. -/
def queryLoop (c : Client) (ctx : Ctx) (expression : String) :
    Nat → Nat → St → Option ((Except OError String) × St)
  | 0, _, _ => none
  | fuel + 1, attempts, st =>
    match getFromRangeServer c ctx expression st with
    | none => none
    | some (res, st1) =>
      let stop : Bool :=
        attempts == c.retryCount || res.isOk ||
          (match res with
           | Except.error e => c.retryCallback attempts e == false
           | Except.ok _ => false)
      if stop then some (res, st1)
      else
        let st2 : St := if c.retryPause > 0 then { st1 with sleeps := st1.sleeps + 1 } else st1
        queryLoop c ctx expression fuel (attempts + 1) st2

/-- query: spawn the retry loop and race its single-slot result handoff
against the context.  When the context concluded strictly before the worker
finished (its final clock), the context error is returned and the worker
result is discarded; otherwise the worker result is returned. -/
def query (c : Client) (ctx : Ctx) (expression : String) (st : St) :
    Option ((Except OError String) × St) :=
  match queryLoop c ctx expression (c.retryCount + 1) 0 st with
  | none => none
  | some (res, st1) =>
    some (if ctxBefore ctx st1.clock then Except.error OError.contextConcluded else res, st1)

/-- The construction configuration: the server list, the retry count and
pause (Go ints, possibly negative before validation), the optional retry
callback and the optional injected transport. -/
structure Config where
  Servers : List String
  RetryCount : Int
  RetryPause : Int
  RetryCallback : Option (Nat → OError → Bool)
  HTTPClient : Option Doer

/-- Modelled from the spec: `newRoundRobinStrings` lives outside client.go;
per §4.1 the non-empty-list check is its only failure point, so it fails
exactly on an empty list and otherwise yields the rotation over the list. -/
def newRoundRobinStrings (ss : List String) : Except String (List String) :=
  if ss.isEmpty then Except.error "cannot create a round robin list without any strings"
  else Except.ok ss

/-- Modelled from the spec: `makeRetryCallback` lives outside client.go; per
§4.4 the default policy retries errors that are not domain-level (transport
and StatusNotOK, not RangeException) up to the count of configured servers,
so each server gets at least one chance. -/
def makeRetryCallback (serverCount : Nat) : Nat → OError → Bool :=
  fun k e =>
    (match e with
     | OError.rangeException _ => false
     | _ => true) && k + 1 < serverCount

/-- Modelled from the spec: the default transport is an external HTTP client
built from externally supplied constants; its network behaviour is outside
the embedding, so it is an arbitrary fixed oracle never relied upon by any
theorem. -/
def defaultHttpClient : Doer :=
  fun _ _ => Except.error "external transport"

/-- NewClient: validate the configuration (negative retry count, negative
retry pause, then the server list via newRoundRobinStrings), fill in the
default retry callback and the default transport when absent, and build the
client. -/
def NewClient (config : Config) : Except String Client :=
  if config.RetryCount < 0 then
    Except.error "cannot create Querier with negative RetryCount"
  else if config.RetryPause < 0 then
    Except.error "cannot create Querier with negative RetryPause"
  else
    match newRoundRobinStrings config.Servers with
    | Except.error _ =>
      Except.error "cannot create Querier without at least one range server address"
    | Except.ok rrs =>
      let retryCallback :=
        match config.RetryCallback with
        | some f => f
        | none => makeRetryCallback config.Servers.length
      let httpClient :=
        match config.HTTPClient with
        | some d => d
        | none => defaultHttpClient
      Except.ok
        { httpClient := httpClient
          servers := rrs
          retryCallback := retryCallback
          retryCount := config.RetryCount.toNat
          retryPause := config.RetryPause.toNat }

/-- The outgoing GET request for a server and an expression. -/
def getAttempt (server uri : String) : Attempt :=
  ⟨server, "GET", uri, ""⟩

/-- The outgoing PUT request for a server and an expression. -/
def putAttempt (server endpoint expression : String) : Attempt :=
  ⟨server, "PUT", endpoint, putBody expression⟩

/-- The request the method-negotiation loop sends for a given method (only
ever applied to GET and PUT). -/
def attemptFor (server endpoint uri expression method : String) : Attempt :=
  if method = "GET" then getAttempt server uri
  else putAttempt server endpoint expression

/-- The first request a resolver invocation sends: a PUT when the GET URI
would exceed the length threshold, a GET otherwise, always against the
round-robin server at the given cursor. -/
def chosenAttempt (servers : List String) (cursor : Nat) (expression : String) : Attempt :=
  let server := serverAt servers cursor
  if byteLen (uriFor server expression) > defaultQueryLengthThreshold then
    putAttempt server (endpointFor server) expression
  else getAttempt server (uriFor server expression)

/-- The trace of a resolver or query outcome ([] for the unreachable panic). -/
def traceOf : Option ((Except OError String) × St) → List Attempt
  | none => []
  | some (_, st) => st.trace

/-- A body that reads to `a b c` and closes cleanly. -/
def bodyOK : Body :=
  ⟨Except.ok "a b c", none⟩

/-- A transport that always answers 500 Internal Server Error. -/
def doer500 : Doer :=
  fun _ _ => Except.ok ⟨"500 Internal Server Error", 500, "", bodyOK⟩

/-- A client over three servers with retry count 2 and a callback that always
retries, wired to the always-500 transport. -/
def client500 : Client :=
  ⟨doer500, ["a", "b", "c"], fun _ _ => true, 2, 0⟩

/-- A transport that always answers 200 OK with no exception header. -/
def doer200 : Doer :=
  fun _ _ => Except.ok ⟨"200 OK", 200, "", bodyOK⟩

/-- A single-server client wired to the always-200 transport. -/
def client200 : Client :=
  ⟨doer200, ["s"], fun _ _ => true, 2, 0⟩

/-- A transport that answers 414 to GET requests and 200 OK to PUT. -/
def doer414 : Doer :=
  fun _ a =>
    if a.method = "GET" then Except.ok ⟨"414 Request-URI Too Long", 414, "", bodyOK⟩
    else Except.ok ⟨"200 OK", 200, "", bodyOK⟩

/-- A two-server client wired to the 414-on-GET transport. -/
def client414 : Client :=
  ⟨doer414, ["s1", "s2"], fun _ _ => true, 2, 5⟩

/-- A transport that always answers 414, whatever the method. -/
def doer414Always : Doer :=
  fun _ _ => Except.ok ⟨"414 Request-URI Too Long", 414, "", bodyOK⟩

/-- A single-server client wired to the always-414 transport. -/
def client414Always : Client :=
  ⟨doer414Always, ["s"], fun _ _ => true, 2, 0⟩

/-- The initial state: cursor, trace, sleeps and clock all at zero. -/
def st0 : St :=
  ⟨0, [], 0, 0⟩

/-- An expression long enough that its GET URI exceeds the threshold. -/
def longExpr : String :=
  String.mk (List.replicate 4200 (Char.ofNat 97))

lemma ctxDone_none (t : Nat) : ctxDone none t = false := rfl

lemma ctxBefore_none (t : Nat) : ctxBefore none t = false := rfl

lemma isOk_error (e : OError) : (Except.error e : Except OError String).isOk = false := rfl

lemma isOk_ok (b : String) : (Except.ok b : Except OError String).isOk = true := rfl

/-- The method-negotiation loop always yields a result (no panic) and only
ever appends to the trace, as long as the method is GET or PUT. -/
lemma getLoop_mono (d : Doer) (ctx : Ctx) (s e u x : String) :
    ∀ (tries : Nat) (method : String) (herr : Option OError) (st : St),
      method = "GET" ∨ method = "PUT" →
      ∃ res st2, getLoop d ctx s e u x tries method herr st = some (res, st2) ∧
        ∃ suffix, st2.trace = st.trace ++ suffix := by
  intro tries
  induction tries with
  | zero =>
    intro method herr st _
    exact ⟨_, st, rfl, [], (List.append_nil _).symm⟩
  | succ n ih =>
    intro method herr st hm
    by_cases hc : ctxDone ctx st.clock
    · refine ⟨Except.error OError.contextConcluded, st, ?_, [], (List.append_nil _).symm⟩
      simp [getLoop, hc]
    · have step :
          ∀ (a : Attempt), a.server = s →
            ∃ res st2,
              (match d st.trace.length a with
               | Except.error msg =>
                 some (Except.error (OError.transport msg),
                   { st with trace := st.trace ++ [a], clock := st.clock + 2 })
               | Except.ok resp =>
                 if resp.statusCode = 200 then
                   if resp.rangeException ≠ "" then
                     some (Except.error (OError.rangeException resp.rangeException),
                       { st with trace := st.trace ++ [a], clock := st.clock + 2 })
                   else
                     some ((readAndClose resp.body).1,
                       { st with trace := st.trace ++ [a], clock := st.clock + 2 })
                 else if resp.statusCode = 414 then
                   getLoop d ctx s e u x n "PUT"
                     (some (OError.statusNotOK resp.status resp.statusCode))
                     { st with trace := st.trace ++ [a], clock := st.clock + 2 }
                 else if resp.statusCode = 405 then
                   getLoop d ctx s e u x n "GET"
                     (some (OError.statusNotOK resp.status resp.statusCode))
                     { st with trace := st.trace ++ [a], clock := st.clock + 2 }
                 else
                   getLoop d ctx s e u x n method
                     (some (OError.statusNotOK resp.status resp.statusCode))
                     { st with trace := st.trace ++ [a], clock := st.clock + 2 })
              = some (res, st2) ∧ ∃ suffix, st2.trace = st.trace ++ suffix := by
        intro a _
        set st1 : St := { st with trace := st.trace ++ [a], clock := st.clock + 2 } with hst1
        have htr1 : st1.trace = st.trace ++ [a] := rfl
        cases hdr : d st.trace.length a with
        | error msg => exact ⟨_, st1, rfl, [a], htr1⟩
        | ok resp =>
          by_cases h200 : resp.statusCode = 200
          · by_cases hre : resp.rangeException ≠ ""
            · refine ⟨Except.error (OError.rangeException resp.rangeException), st1, ?_, [a], htr1⟩
              simp [h200, hre]
            · refine ⟨(readAndClose resp.body).1, st1, ?_, [a], htr1⟩
              simp [h200, hre]
          · by_cases h414 : resp.statusCode = 414
            · obtain ⟨res, st2, heq, suffix, htr⟩ :=
                ih "PUT" (some (OError.statusNotOK resp.status 414)) st1 (Or.inr rfl)
              refine ⟨res, st2, ?_, a :: suffix, ?_⟩
              · simp [h200, h414, heq]
              · rw [htr, htr1, List.append_assoc]
                rfl
            · by_cases h405 : resp.statusCode = 405
              · obtain ⟨res, st2, heq, suffix, htr⟩ :=
                  ih "GET" (some (OError.statusNotOK resp.status 405)) st1 (Or.inl rfl)
                refine ⟨res, st2, ?_, a :: suffix, ?_⟩
                · simp [h200, h414, h405, heq]
                · rw [htr, htr1, List.append_assoc]
                  rfl
              · obtain ⟨res, st2, heq, suffix, htr⟩ :=
                  ih method (some (OError.statusNotOK resp.status resp.statusCode)) st1 hm
                refine ⟨res, st2, ?_, a :: suffix, ?_⟩
                · simp [h200, h414, h405, heq]
                · rw [htr, htr1, List.append_assoc]
                  rfl
      rcases hm with rfl | rfl
      · obtain ⟨res, st2, heq, suffix, htr⟩ := step (getAttempt s u) rfl
        refine ⟨res, st2, ?_, suffix, htr⟩
        rw [← heq]
        simp [getLoop, hc, getAttempt]
      · obtain ⟨res, st2, heq, suffix, htr⟩ := step (putAttempt s e x) rfl
        refine ⟨res, st2, ?_, suffix, htr⟩
        rw [← heq]
        simp [getLoop, hc, putAttempt]

/-- The first request the method-negotiation loop sends is the one determined
by its starting method, and everything later in the invocation only appends
to the trace. -/
lemma getLoop_first (d : Doer) (ctx : Ctx) (s e u x : String) (n : Nat) (method : String)
    (herr : Option OError) (st : St)
    (hm : method = "GET" ∨ method = "PUT") (hc : ctxDone ctx st.clock = false) :
    ∃ rest, traceOf (getLoop d ctx s e u x (n + 1) method herr st) =
      st.trace ++ attemptFor s e u x method :: rest := by
  rcases hm with rfl | rfl
  · cases hdr : d st.trace.length (⟨s, "GET", u, ""⟩ : Attempt) with
    | error msg =>
      refine ⟨[], ?_⟩
      simp [getLoop, hc, getAttempt, hdr, traceOf, attemptFor]
    | ok resp =>
      by_cases h200 : resp.statusCode = 200
      · by_cases hre : resp.rangeException ≠ ""
        · refine ⟨[], ?_⟩
          simp [getLoop, hc, getAttempt, hdr, h200, hre, traceOf, attemptFor]
        · refine ⟨[], ?_⟩
          simp [getLoop, hc, getAttempt, hdr, h200, hre, traceOf, attemptFor]
      · by_cases h414 : resp.statusCode = 414
        · obtain ⟨res, st2, heq, suffix, htr⟩ :=
            getLoop_mono d ctx s e u x n "PUT" (some (OError.statusNotOK resp.status 414))
              { st with trace := st.trace ++ [⟨s, "GET", u, ""⟩], clock := st.clock + 2 } (Or.inr rfl)
          refine ⟨suffix, ?_⟩
          simp only [getLoop, hc, Bool.false_eq_true, if_false, getAttempt] at heq ⊢
          simp [hdr, h200, h414, heq, traceOf, attemptFor, getAttempt, htr, List.append_assoc]
        · by_cases h405 : resp.statusCode = 405
          · obtain ⟨res, st2, heq, suffix, htr⟩ :=
              getLoop_mono d ctx s e u x n "GET" (some (OError.statusNotOK resp.status 405))
                { st with trace := st.trace ++ [⟨s, "GET", u, ""⟩], clock := st.clock + 2 } (Or.inl rfl)
            refine ⟨suffix, ?_⟩
            simp [hdr, h200, h414, h405, heq, getLoop, hc, traceOf, attemptFor, getAttempt, htr,
              List.append_assoc]
          · obtain ⟨res, st2, heq, suffix, htr⟩ :=
              getLoop_mono d ctx s e u x n "GET"
                (some (OError.statusNotOK resp.status resp.statusCode))
                { st with trace := st.trace ++ [⟨s, "GET", u, ""⟩], clock := st.clock + 2 } (Or.inl rfl)
            refine ⟨suffix, ?_⟩
            simp [hdr, h200, h414, h405, heq, getLoop, hc, traceOf, attemptFor, getAttempt, htr,
              List.append_assoc]
  · cases hdr : d st.trace.length (⟨s, "PUT", e, putBody x⟩ : Attempt) with
    | error msg =>
      refine ⟨[], ?_⟩
      simp [getLoop, hc, putAttempt, hdr, traceOf, attemptFor]
    | ok resp =>
      by_cases h200 : resp.statusCode = 200
      · by_cases hre : resp.rangeException ≠ ""
        · refine ⟨[], ?_⟩
          simp [getLoop, hc, putAttempt, hdr, h200, hre, traceOf, attemptFor]
        · refine ⟨[], ?_⟩
          simp [getLoop, hc, putAttempt, hdr, h200, hre, traceOf, attemptFor]
      · by_cases h414 : resp.statusCode = 414
        · obtain ⟨res, st2, heq, suffix, htr⟩ :=
            getLoop_mono d ctx s e u x n "PUT" (some (OError.statusNotOK resp.status 414))
              { st with trace := st.trace ++ [⟨s, "PUT", e, putBody x⟩], clock := st.clock + 2 } (Or.inr rfl)
          refine ⟨suffix, ?_⟩
          simp [hdr, h200, h414, heq, getLoop, hc, traceOf, attemptFor, putAttempt, htr,
            List.append_assoc]
        · by_cases h405 : resp.statusCode = 405
          · obtain ⟨res, st2, heq, suffix, htr⟩ :=
              getLoop_mono d ctx s e u x n "GET" (some (OError.statusNotOK resp.status 405))
                { st with trace := st.trace ++ [⟨s, "PUT", e, putBody x⟩], clock := st.clock + 2 } (Or.inl rfl)
            refine ⟨suffix, ?_⟩
            simp [hdr, h200, h414, h405, heq, getLoop, hc, traceOf, attemptFor, putAttempt, htr,
              List.append_assoc]
          · obtain ⟨res, st2, heq, suffix, htr⟩ :=
              getLoop_mono d ctx s e u x n "PUT"
                (some (OError.statusNotOK resp.status resp.statusCode))
                { st with trace := st.trace ++ [⟨s, "PUT", e, putBody x⟩], clock := st.clock + 2 } (Or.inr rfl)
            refine ⟨suffix, ?_⟩
            simp [hdr, h200, h414, h405, heq, getLoop, hc, traceOf, attemptFor, putAttempt, htr,
              List.append_assoc]

/-- Against a transport that always answers with one fixed response whose
status is none of 200, 414 and 405, the 2-try loop sends the same request
twice and returns the last recorded StatusNotOK error. -/
lemma getLoop_const_status (d : Doer) (s e u x : String) (resp : HttpResponse)
    (hd : ∀ i a, d i a = Except.ok resp)
    (h200 : resp.statusCode ≠ 200) (h414 : resp.statusCode ≠ 414)
    (h405 : resp.statusCode ≠ 405)
    (method : String) (hm : method = "GET" ∨ method = "PUT")
    (herr : Option OError) (st : St) :
    getLoop d none s e u x 2 method herr st =
      some (Except.error (OError.statusNotOK resp.status resp.statusCode),
        { st with
            trace := st.trace ++ [attemptFor s e u x method, attemptFor s e u x method],
            clock := st.clock + 4 }) := by
  rcases hm with rfl | rfl
  · simp [getLoop, ctxDone, hd, h200, h414, h405, attemptFor, getAttempt]
  · simp [getLoop, ctxDone, hd, h200, h414, h405, attemptFor, putAttempt]

/-- One resolver invocation against such a transport: the cursor advances
once, the chosen request is sent twice, and the StatusNotOK error of the
fixed response is returned. -/
lemma getFromRangeServer_const_status (c : Client) (resp : HttpResponse)
    (hd : ∀ i a, c.httpClient i a = Except.ok resp)
    (h200 : resp.statusCode ≠ 200) (h414 : resp.statusCode ≠ 414)
    (h405 : resp.statusCode ≠ 405) (expression : String) (st : St) :
    getFromRangeServer c none expression st =
      some (Except.error (OError.statusNotOK resp.status resp.statusCode),
        { cursor := st.cursor + 1,
          trace := st.trace ++
            [chosenAttempt c.servers st.cursor expression,
             chosenAttempt c.servers st.cursor expression],
          sleeps := st.sleeps,
          clock := st.clock + 4 }) := by
  by_cases hlen : byteLen (uriFor (serverAt c.servers st.cursor) expression) >
      defaultQueryLengthThreshold
  · rw [getFromRangeServer,
      getLoop_const_status c.httpClient (serverAt c.servers st.cursor)
        (endpointFor (serverAt c.servers st.cursor))
        (uriFor (serverAt c.servers st.cursor) expression) expression resp hd h200 h414 h405
        (if byteLen (uriFor (serverAt c.servers st.cursor) expression) >
            defaultQueryLengthThreshold then "PUT" else "GET")
        (by simp [hlen]) none { st with cursor := st.cursor + 1 }]
    simp [chosenAttempt, attemptFor, hlen, getAttempt, putAttempt]
  · rw [getFromRangeServer,
      getLoop_const_status c.httpClient (serverAt c.servers st.cursor)
        (endpointFor (serverAt c.servers st.cursor))
        (uriFor (serverAt c.servers st.cursor) expression) expression resp hd h200 h414 h405
        (if byteLen (uriFor (serverAt c.servers st.cursor) expression) >
            defaultQueryLengthThreshold then "PUT" else "GET")
        (by simp [hlen]) none { st with cursor := st.cursor + 1 }]
    simp [chosenAttempt, attemptFor, hlen, getAttempt, putAttempt]

lemma stringBytes_cons (c : Char) (l : List Char) :
    stringBytes (String.mk (c :: l)) = utf8Bytes c ++ stringBytes (String.mk l) := rfl

lemma utf8Bytes_a : utf8Bytes (Char.ofNat 97) = [97] := rfl

lemma byteEscape_97 : byteEscape 97 = [Char.ofNat 97] := rfl

lemma stringBytes_replicate_a (n : Nat) :
    stringBytes (String.mk (List.replicate n (Char.ofNat 97))) = List.replicate n 97 := by
  induction n with
  | zero => rfl
  | succ m ih =>
    rw [List.replicate_succ, stringBytes_cons, ih, utf8Bytes_a, List.replicate_succ]
    rfl

lemma byteLen_replicate_a (n : Nat) :
    byteLen (String.mk (List.replicate n (Char.ofNat 97))) = n := by
  rw [byteLen, stringBytes_replicate_a, List.length_replicate]

lemma queryEscape_replicate_a (n : Nat) :
    queryEscape (String.mk (List.replicate n (Char.ofNat 97))) =
      String.mk (List.replicate n (Char.ofNat 97)) := by
  rw [queryEscape, stringBytes_replicate_a]
  congr 1
  induction n with
  | zero => rfl
  | succ m ih =>
    rw [List.replicate_succ, List.foldr_cons, byteEscape_97, ih, List.replicate_succ]
    rfl

lemma foldr_bytes_init (l : List Char) (init : List Nat) :
    l.foldr (fun c acc => utf8Bytes c ++ acc) init =
      l.foldr (fun c acc => utf8Bytes c ++ acc) [] ++ init := by
  induction l with
  | nil => rfl
  | cons c t ih => simp [List.foldr_cons, ih, List.append_assoc]

lemma stringBytes_append (s t : String) :
    stringBytes (s ++ t) = stringBytes s ++ stringBytes t := by
  cases s with
  | mk l1 =>
    cases t with
    | mk l2 =>
      show (l1 ++ l2).foldr (fun c acc => utf8Bytes c ++ acc) [] = _
      rw [List.foldr_append, foldr_bytes_init]
      rfl

lemma byteLen_append (s t : String) : byteLen (s ++ t) = byteLen s + byteLen t := by
  rw [byteLen, stringBytes_append, List.length_append]
  rfl

lemma hlen_longExpr :
    byteLen (uriFor (serverAt ["s"] 0) longExpr) > defaultQueryLengthThreshold := by
  have h1 : serverAt ["s"] 0 = "s" := rfl
  have h2 : queryEscape longExpr = longExpr := queryEscape_replicate_a 4200
  have h3 : byteLen longExpr = 4200 := byteLen_replicate_a 4200
  rw [h1, uriFor, byteLen_append, byteLen_append, h2, h3]
  have h4 : byteLen (endpointFor "s") = 19 := by decide
  rw [h4]
  decide

/-- Claim C1, counterexample: against the always-500 backend with retry
count 2, one resolver invocation already performs 2 local HTTP attempts (not
1), and the whole query performs 6 HTTP attempts (not the 3 the claim
states), returning StatusNotOK 500. -/
theorem C1_counterexample :
    (getFromRangeServer client500 none "q" st0).map (fun p => p.2.trace.length) = some 2 ∧
    some 2 ≠ some 1 ∧
    (query client500 none "q" st0).map (fun p => p.2.trace.length) = some 6 ∧
    some 6 ≠ some 3 ∧
    (query client500 none "q" st0).map (fun p => p.1) =
      some (Except.error (OError.statusNotOK "500 Internal Server Error" 500)) :=
  ⟨rfl, by decide, rfl, by decide, rfl⟩

/-- Claim C1 as amended: on a response whose status is none of 200, 405 and
414, the resolver records StatusNotOK and continues its local loop with the
same method against the same server up to the 2-attempt cap, returning the
last StatusNotOK; hence against a backend that always returns such a status,
with retry count 2 and a callback that retries it, exactly 6 HTTP attempts
occur — 2 per resolver invocation, the 3 invocations each against the next
round-robin-selected server — and the StatusNotOK error is returned. -/
theorem C1_amended (c : Client) (resp : HttpResponse) (expression : String) (st : St)
    (hd : ∀ i a, c.httpClient i a = Except.ok resp)
    (h200 : resp.statusCode ≠ 200) (h414 : resp.statusCode ≠ 414) (h405 : resp.statusCode ≠ 405)
    (hrc : c.retryCount = 2)
    (hcb : ∀ k, c.retryCallback k (OError.statusNotOK resp.status resp.statusCode) = true) :
    (∀ k, (chosenAttempt c.servers k expression).server = serverAt c.servers k) ∧
    query c none expression st =
      some (Except.error (OError.statusNotOK resp.status resp.statusCode),
        { cursor := st.cursor + 3,
          trace := st.trace ++
            [chosenAttempt c.servers st.cursor expression,
             chosenAttempt c.servers st.cursor expression,
             chosenAttempt c.servers (st.cursor + 1) expression,
             chosenAttempt c.servers (st.cursor + 1) expression,
             chosenAttempt c.servers (st.cursor + 2) expression,
             chosenAttempt c.servers (st.cursor + 2) expression],
          sleeps := st.sleeps + (if 0 < c.retryPause then 2 else 0),
          clock := st.clock + 12 }) := by
  constructor
  · intro k
    rw [chosenAttempt]
    split
    · rfl
    · rfl
  · have step := getFromRangeServer_const_status c resp hd h200 h414 h405 expression
    by_cases hp : 0 < c.retryPause
    · simp [query, queryLoop, hrc, step, hcb, hp, ctxBefore_none, isOk_error,
        List.append_assoc]
    · simp [query, queryLoop, hrc, step, hcb, hp, ctxBefore_none, isOk_error,
        List.append_assoc]

/-- Claim C1, witness: the amended claim at the concrete always-500 scenario. -/
theorem C1_witness :
    (∀ k, (chosenAttempt ["a", "b", "c"] k "q").server = serverAt ["a", "b", "c"] k) ∧
    query client500 none "q" st0 =
      some (Except.error (OError.statusNotOK "500 Internal Server Error" 500),
        { cursor := 3,
          trace := [chosenAttempt ["a", "b", "c"] 0 "q", chosenAttempt ["a", "b", "c"] 0 "q",
            chosenAttempt ["a", "b", "c"] 1 "q", chosenAttempt ["a", "b", "c"] 1 "q",
            chosenAttempt ["a", "b", "c"] 2 "q", chosenAttempt ["a", "b", "c"] 2 "q"],
          sleeps := 0,
          clock := 12 }) :=
  C1_amended client500 ⟨"500 Internal Server Error", 500, "", bodyOK⟩ "q" st0
    (fun _ _ => rfl) (by decide) (by decide) (by decide) rfl (fun _ => rfl)

/-- Claim C5: for every client, expression and state, the first request of a
resolver invocation uses PUT exactly when the encoded GET URI (request
target included) exceeds the 4096-byte threshold, and GET otherwise. -/
theorem C5_first_method (c : Client) (expression : String) (st : St) :
    ∃ a rest, traceOf (getFromRangeServer c none expression st) = st.trace ++ a :: rest ∧
      a.method =
        (if byteLen (uriFor (serverAt c.servers st.cursor) expression) >
            defaultQueryLengthThreshold then "PUT" else "GET") := by
  by_cases hlen : byteLen (uriFor (serverAt c.servers st.cursor) expression) >
      defaultQueryLengthThreshold
  · obtain ⟨rest, hres⟩ :=
      getLoop_first c.httpClient none (serverAt c.servers st.cursor)
        (endpointFor (serverAt c.servers st.cursor))
        (uriFor (serverAt c.servers st.cursor) expression) expression 1 "PUT" none
        { st with cursor := st.cursor + 1 } (Or.inr rfl) rfl
    refine ⟨attemptFor (serverAt c.servers st.cursor) (endpointFor (serverAt c.servers st.cursor))
      (uriFor (serverAt c.servers st.cursor) expression) expression "PUT", rest, ?_, ?_⟩
    · simpa [getFromRangeServer, hlen] using hres
    · simp [attemptFor, putAttempt, hlen]
  · obtain ⟨rest, hres⟩ :=
      getLoop_first c.httpClient none (serverAt c.servers st.cursor)
        (endpointFor (serverAt c.servers st.cursor))
        (uriFor (serverAt c.servers st.cursor) expression) expression 1 "GET" none
        { st with cursor := st.cursor + 1 } (Or.inl rfl) rfl
    refine ⟨attemptFor (serverAt c.servers st.cursor) (endpointFor (serverAt c.servers st.cursor))
      (uriFor (serverAt c.servers st.cursor) expression) expression "GET", rest, ?_, ?_⟩
    · simpa [getFromRangeServer, hlen] using hres
    · simp [attemptFor, getAttempt, hlen]

/-- Claim C9: the resolver dispatch only ever sees the methods GET and PUT,
so the panic branch for an unsupported method is unreachable and every
resolver invocation yields a result. -/
theorem C9_no_panic (c : Client) (ctx : Ctx) (expression : String) (st : St) :
    (getFromRangeServer c ctx expression st).isSome = true := by
  by_cases hlen : byteLen (uriFor (serverAt c.servers st.cursor) expression) >
      defaultQueryLengthThreshold
  · obtain ⟨res, st2, heq, _⟩ :=
      getLoop_mono c.httpClient ctx (serverAt c.servers st.cursor)
        (endpointFor (serverAt c.servers st.cursor))
        (uriFor (serverAt c.servers st.cursor) expression) expression 2 "PUT" none
        { st with cursor := st.cursor + 1 } (Or.inr rfl)
    simp [getFromRangeServer, hlen, heq]
  · obtain ⟨res, st2, heq, _⟩ :=
      getLoop_mono c.httpClient ctx (serverAt c.servers st.cursor)
        (endpointFor (serverAt c.servers st.cursor))
        (uriFor (serverAt c.servers st.cursor) expression) expression 2 "GET" none
        { st with cursor := st.cursor + 1 } (Or.inl rfl)
    simp [getFromRangeServer, hlen, heq]

/-- Claim C10: when the invocation starts in PUT because the query exceeded
the threshold and the server answers 414, the 414 case sets the method to
PUT again, so the second and final local attempt repeats the same PUT
against the same server, and the last StatusNotOK is returned. -/
theorem C10_put_stays_put (c : Client) (expression : String) (st : St) (resp : HttpResponse)
    (hd : ∀ i a, c.httpClient i a = Except.ok resp)
    (hst : resp.statusCode = 414)
    (hlen : byteLen (uriFor (serverAt c.servers st.cursor) expression) >
      defaultQueryLengthThreshold) :
    getFromRangeServer c none expression st =
      some (Except.error (OError.statusNotOK resp.status 414),
        { cursor := st.cursor + 1,
          trace := st.trace ++
            [putAttempt (serverAt c.servers st.cursor)
               (endpointFor (serverAt c.servers st.cursor)) expression,
             putAttempt (serverAt c.servers st.cursor)
               (endpointFor (serverAt c.servers st.cursor)) expression],
          sleeps := st.sleeps, clock := st.clock + 4 }) := by
  simp [getFromRangeServer, hlen, getLoop, ctxDone, hd, hst, putAttempt, List.append_assoc]

/-- Claim C10, witness: the always-414 backend with a 4200-byte query. -/
theorem C10_witness :
    byteLen (uriFor (serverAt ["s"] 0) longExpr) > defaultQueryLengthThreshold ∧
    getFromRangeServer client414Always none longExpr st0 =
      some (Except.error (OError.statusNotOK "414 Request-URI Too Long" 414),
        { cursor := 1,
          trace := [putAttempt "s" (endpointFor "s") longExpr,
                    putAttempt "s" (endpointFor "s") longExpr],
          sleeps := 0, clock := 4 }) :=
  ⟨hlen_longExpr,
   C10_put_stays_put client414Always longExpr st0 ⟨"414 Request-URI Too Long", 414, "", bodyOK⟩
     (fun _ _ => rfl) rfl hlen_longExpr⟩

/-- A transport that always answers 200 OK with header RangeException set. -/
def doerExc : Doer :=
  fun _ _ => Except.ok ⟨"200 OK", 200, "bad syntax", bodyOK⟩

/-- A single-server client wired to the RangeException transport. -/
def clientExc : Client :=
  ⟨doerExc, ["s"], fun _ _ => true, 2, 0⟩

/-- Claim C2: a GET answered with 414 flips the method to PUT and retries
within the same resolver invocation against the same server (the round-robin
cursor advances only once), capped at 2 local attempts; when that PUT is
answered 200 with no exception header, the whole query succeeds after that
single resolver invocation, with no retry consumed and no inter-retry
sleep. -/
theorem C2_get_414_put_200 (c : Client) (expression : String) (st : St)
    (r414 r200 : HttpResponse) (bz : String)
    (hget : ∀ i a, a.method = "GET" → c.httpClient i a = Except.ok r414)
    (hput : ∀ i a, a.method = "PUT" → c.httpClient i a = Except.ok r200)
    (h414 : r414.statusCode = 414)
    (h200 : r200.statusCode = 200) (hre : r200.rangeException = "")
    (hrd : r200.body.readResult = Except.ok bz) (hcl : r200.body.closeResult = none)
    (hlen : ¬ byteLen (uriFor (serverAt c.servers st.cursor) expression) >
      defaultQueryLengthThreshold) :
    query c none expression st =
      some (Except.ok bz,
        { cursor := st.cursor + 1,
          trace := st.trace ++
            [getAttempt (serverAt c.servers st.cursor)
               (uriFor (serverAt c.servers st.cursor) expression),
             putAttempt (serverAt c.servers st.cursor)
               (endpointFor (serverAt c.servers st.cursor)) expression],
          sleeps := st.sleeps, clock := st.clock + 4 }) := by
  have hg : ∀ i, c.httpClient i ⟨serverAt c.servers st.cursor, "GET",
      uriFor (serverAt c.servers st.cursor) expression, ""⟩ = Except.ok r414 :=
    fun i => hget i _ rfl
  have hp : ∀ i, c.httpClient i ⟨serverAt c.servers st.cursor, "PUT",
      endpointFor (serverAt c.servers st.cursor), putBody expression⟩ = Except.ok r200 :=
    fun i => hput i _ rfl
  simp [query, queryLoop, getFromRangeServer, hlen, getLoop, ctxDone_none, hg, hp,
    h414, h200, hre, readAndClose, hrd, hcl, isOk_ok, ctxBefore_none, getAttempt,
    putAttempt, List.append_assoc]

/-- Claim C2, witness: the 414-on-GET transport at a concrete input. -/
theorem C2_witness :
    query client414 none "hello world" st0 =
      some (Except.ok "a b c",
        { cursor := 1,
          trace := [getAttempt "s1" (uriFor "s1" "hello world"),
                    putAttempt "s1" (endpointFor "s1") "hello world"],
          sleeps := 0, clock := 4 }) :=
  C2_get_414_put_200 client414 "hello world" st0
    ⟨"414 Request-URI Too Long", 414, "", bodyOK⟩ ⟨"200 OK", 200, "", bodyOK⟩ "a b c"
    (fun i a h => by simp [client414, doer414, h])
    (fun i a h => by simp [client414, doer414, h])
    rfl rfl rfl rfl rfl (by decide)

/-- Claim C3: after a failed resolver call the retry loop stops and returns
that error exactly when the attempt counter equals the retry count or the
retry callback rejects the error (an absent error instead stops with
success); otherwise it increments the counter, sleeps once when the
configured pause is positive, and calls the resolver again. -/
theorem C3_retry_loop (c : Client) (ctx : Ctx) (expression : String)
    (fuel attempts : Nat) (st st1 : St) (res : Except OError String)
    (h : getFromRangeServer c ctx expression st = some (res, st1)) :
    (res.isOk = true → queryLoop c ctx expression (fuel + 1) attempts st = some (res, st1)) ∧
    (∀ e, res = Except.error e →
      ((attempts = c.retryCount ∨ c.retryCallback attempts e = false) →
        queryLoop c ctx expression (fuel + 1) attempts st = some (Except.error e, st1)) ∧
      (attempts ≠ c.retryCount → c.retryCallback attempts e = true →
        queryLoop c ctx expression (fuel + 1) attempts st =
          queryLoop c ctx expression fuel (attempts + 1)
            (if c.retryPause > 0 then { st1 with sleeps := st1.sleeps + 1 } else st1))) := by
  constructor
  · intro hok
    cases res with
    | ok b => simp [queryLoop, h, isOk_ok]
    | error e => simp [isOk_error] at hok
  · rintro e rfl
    constructor
    · rintro (hstop | hstop)
      · simp [queryLoop, h, hstop]
      · simp [queryLoop, h, hstop]
    · intro hne hcb
      simp [queryLoop, h, hne, hcb, isOk_error]

/-- Claim C3, witness: the three stop/continue behaviours at concrete
inputs — success stops, counter exhaustion stops, and otherwise the loop
recurses with the counter incremented. -/
theorem C3_witness :
    queryLoop client200 none "q" 1 0 st0 =
      some (Except.ok "a b c", ⟨1, [getAttempt "s" (uriFor "s" "q")], 0, 2⟩) ∧
    queryLoop client500 none "q" 3 2 st0 =
      some (Except.error (OError.statusNotOK "500 Internal Server Error" 500),
        ⟨1, [getAttempt "a" (uriFor "a" "q"), getAttempt "a" (uriFor "a" "q")], 0, 4⟩) ∧
    queryLoop client500 none "q" 1 0 st0 =
      queryLoop client500 none "q" 0 1
        ⟨1, [getAttempt "a" (uriFor "a" "q"), getAttempt "a" (uriFor "a" "q")], 0, 4⟩ :=
  ⟨(C3_retry_loop client200 none "q" 0 0 st0
      ⟨1, [getAttempt "s" (uriFor "s" "q")], 0, 2⟩ (Except.ok "a b c") rfl).1 rfl,
   ((C3_retry_loop client500 none "q" 2 2 st0
      ⟨1, [getAttempt "a" (uriFor "a" "q"), getAttempt "a" (uriFor "a" "q")], 0, 4⟩
      (Except.error (OError.statusNotOK "500 Internal Server Error" 500)) rfl).2 _ rfl).1
      (Or.inl rfl),
   ((C3_retry_loop client500 none "q" 0 0 st0
      ⟨1, [getAttempt "a" (uriFor "a" "q"), getAttempt "a" (uriFor "a" "q")], 0, 4⟩
      (Except.error (OError.statusNotOK "500 Internal Server Error" 500)) rfl).2 _ rfl).2
      (by decide) rfl⟩

/-- Claim C4: before each local send the context is checked — an already
concluded context makes the resolver return the context error with no
transport call (the trace is unchanged, only the cursor advanced by the
already performed server selection); and at the top level, when the context
concluded strictly before the worker finished, `query` returns the context
error and the worker result is discarded. -/
theorem C4_cancellation (c : Client) (expression : String) :
    (∀ (ctx : Ctx) (st : St), ctxDone ctx st.clock = true →
      getFromRangeServer c ctx expression st =
        some (Except.error OError.contextConcluded, { st with cursor := st.cursor + 1 })) ∧
    (∀ (d : Nat) (st : St) (res : Except OError String) (st1 : St),
      queryLoop c (some d) expression (c.retryCount + 1) 0 st = some (res, st1) →
      d < st1.clock →
      query c (some d) expression st = some (Except.error OError.contextConcluded, st1)) := by
  constructor
  · intro ctx st hc
    by_cases hlen : byteLen (uriFor (serverAt c.servers st.cursor) expression) >
        defaultQueryLengthThreshold
    · simp [getFromRangeServer, hlen, getLoop, hc]
    · simp [getFromRangeServer, hlen, getLoop, hc]
  · intro d st res st1 hq hlt
    simp [query, hq, ctxBefore, hlt]

/-- Claim C4, witness: a context concluded at time 0 stops the resolver
before any send, and a context concluded at time 1 — while the only
attempt was in flight — makes the query return the context error instead of
the 200 response the worker obtained. -/
theorem C4_witness :
    getFromRangeServer client200 (some 0) "q" st0 =
      some (Except.error OError.contextConcluded, ⟨1, [], 0, 0⟩) ∧
    query client200 (some 1) "q" st0 =
      some (Except.error OError.contextConcluded,
        ⟨1, [getAttempt "s" (uriFor "s" "q")], 0, 2⟩) :=
  ⟨(C4_cancellation client200 "q").1 (some 0) st0 rfl,
   (C4_cancellation client200 "q").2 1 st0 (Except.ok "a b c")
     ⟨1, [getAttempt "s" (uriFor "s" "q")], 0, 2⟩ rfl (by decide)⟩

/-- Claim C6: a 200 response whose RangeException header is non-empty makes
the resolver fail with a RangeException error carrying exactly the header
message, whatever the body holds per call (the right-hand side does not
mention the bodies, so the body is never consumed). -/
theorem C6_range_exception (c : Client) (ctx : Ctx) (expression : String) (st : St)
    (status m : String) (bodyFn : Nat → Attempt → Body)
    (hd : ∀ i a, c.httpClient i a = Except.ok ⟨status, 200, m, bodyFn i a⟩)
    (hm : m ≠ "")
    (hctx : ctxDone ctx st.clock = false) :
    getFromRangeServer c ctx expression st =
      some (Except.error (OError.rangeException m),
        ⟨st.cursor + 1, st.trace ++ [chosenAttempt c.servers st.cursor expression],
         st.sleeps, st.clock + 2⟩) := by
  by_cases hlen : byteLen (uriFor (serverAt c.servers st.cursor) expression) >
      defaultQueryLengthThreshold
  · simp [getFromRangeServer, hlen, getLoop, hctx, hd, hm, chosenAttempt, putAttempt]
  · simp [getFromRangeServer, hlen, getLoop, hctx, hd, hm, chosenAttempt, getAttempt]

/-- Claim C6, witness: a backend answering 200 with RangeException bad
syntax. -/
theorem C6_witness :
    getFromRangeServer clientExc none "q" st0 =
      some (Except.error (OError.rangeException "bad syntax"),
        ⟨1, [chosenAttempt ["s"] 0 "q"], 0, 2⟩) :=
  C6_range_exception clientExc none "q" st0 "200 OK" "bad syntax" (fun _ _ => bodyOK)
    (fun _ _ => rfl) (by decide) rfl

/-- Claim C7: readAndClose attempts both the read and the close in every
case; a read error is returned in preference to a close error; on a clean
read and close the full body is returned; and the resolver, on a 200
response with no exception header, returns exactly the readAndClose outcome
of that body. -/
theorem C7_read_and_close :
    (∀ rc : Body, (readAndClose rc).2 = (true, true)) ∧
    (∀ (rc : Body) (r : String), rc.readResult = Except.error r →
      (readAndClose rc).1 = Except.error (OError.readError r)) ∧
    (∀ (rc : Body) (b : String), rc.readResult = Except.ok b → rc.closeResult = none →
      (readAndClose rc).1 = Except.ok b) ∧
    (∀ (rc : Body) (b ce : String), rc.readResult = Except.ok b → rc.closeResult = some ce →
      (readAndClose rc).1 = Except.error (OError.closeError ce)) ∧
    (∀ (c : Client) (ctx : Ctx) (expression : String) (st : St) (resp : HttpResponse),
      (∀ i a, c.httpClient i a = Except.ok resp) → resp.statusCode = 200 →
      resp.rangeException = "" → ctxDone ctx st.clock = false →
      getFromRangeServer c ctx expression st =
        some ((readAndClose resp.body).1,
          ⟨st.cursor + 1, st.trace ++ [chosenAttempt c.servers st.cursor expression],
           st.sleeps, st.clock + 2⟩)) := by
  refine ⟨fun rc => rfl, ?_, ?_, ?_, ?_⟩
  · intro rc r h
    simp [readAndClose, h]
  · intro rc b h1 h2
    simp [readAndClose, h1, h2]
  · intro rc b ce h1 h2
    simp [readAndClose, h1, h2]
  · intro c ctx expression st resp hd h200 hre hctx
    by_cases hlen : byteLen (uriFor (serverAt c.servers st.cursor) expression) >
        defaultQueryLengthThreshold
    · simp [getFromRangeServer, hlen, getLoop, hctx, hd, h200, hre, chosenAttempt, putAttempt]
    · simp [getFromRangeServer, hlen, getLoop, hctx, hd, h200, hre, chosenAttempt, getAttempt]

/-- Claim C7, witness: concrete bodies exercising each branch, and the
resolver returning the readAndClose outcome of the 200 body. -/
theorem C7_witness :
    (readAndClose ⟨Except.error "boom", some "cboom"⟩).2 = (true, true) ∧
    (readAndClose ⟨Except.error "boom", some "cboom"⟩).1 =
      Except.error (OError.readError "boom") ∧
    (readAndClose ⟨Except.ok "a b c", none⟩).1 = Except.ok "a b c" ∧
    (readAndClose ⟨Except.ok "a b c", some "cboom"⟩).1 =
      Except.error (OError.closeError "cboom") ∧
    getFromRangeServer client200 none "q" st0 =
      some ((readAndClose bodyOK).1, ⟨1, [chosenAttempt ["s"] 0 "q"], 0, 2⟩) :=
  ⟨C7_read_and_close.1 ⟨Except.error "boom", some "cboom"⟩,
   C7_read_and_close.2.1 ⟨Except.error "boom", some "cboom"⟩ "boom" rfl,
   C7_read_and_close.2.2.1 ⟨Except.ok "a b c", none⟩ "a b c" rfl rfl,
   C7_read_and_close.2.2.2.1 ⟨Except.ok "a b c", some "cboom"⟩ "a b c" "cboom" rfl rfl,
   C7_read_and_close.2.2.2.2 client200 none "q" st0 ⟨"200 OK", 200, "", bodyOK⟩
     (fun _ _ => rfl) rfl rfl rfl⟩

/-- Claim C8: construction succeeds exactly when the server list is
non-empty and the retry count and retry pause are non-negative; no other
construction path fails. -/
theorem C8_construction (config : Config) :
    (NewClient config).isOk = true ↔
      ¬(config.Servers = [] ∨ config.RetryCount < 0 ∨ config.RetryPause < 0) := by
  rw [NewClient, newRoundRobinStrings]
  by_cases h1 : config.RetryCount < 0
  · simp [h1, Except.isOk, Except.toBool]
  · by_cases h2 : config.RetryPause < 0
    · simp [h1, h2, Except.isOk, Except.toBool]
    · cases hs : config.Servers with
      | nil => simp [h1, h2, hs, Except.isOk, Except.toBool, List.isEmpty]
      | cons a l => simp [h1, h2, hs, Except.isOk, Except.toBool, List.isEmpty]
